import Mathlib

/-!
Verification of the Document Lifecycle & Sharing Consistency Engine of a
Google-Drive-clone backend (`controller/userDocController.js` and the
`getSignedUrlForDoc` utility), as a shallow embedding.

Modelling conventions:
* Object storage is the set of live object keys (`Finset String`); `copy`
  inserts the destination key, `remove` erases keys.
* The metadata store is a list of `Document` rows plus a list of `Share`
  rows; supabase `.update`/`.delete` calls become `List.map`/`List.filter`
  over the rows with the same `eq` filters the source uses.
* Each fallible adapter call (storage copy/remove/sign, db update/delete)
  is given an injected fault flag; a call fails exactly when its flag is
  set (the existence probe additionally fails when the probed key is not a
  live object, since the source uses it as an existence check).
* Signed-URL minting is modelled by the deterministic `mkSignedUrl`
  (the URL value is opaque to the engine; only presence matters).
* JavaScript string truthiness (`if (x)`) on nullable strings is modelled
  by `optTruthy`; `.replace(/^\/+/, '').trim()` is `cleanKey`;
  `.replace(/^\/+/, '')` alone is `stripSlashes`.
-/

namespace Drive

/-- A row of the `UserDocuments` table, with the fields the lifecycle and
sharing engine reads. -/
structure Document where
  id : String
  uid : String
  fileName : String
  path_of_file : Option String
  status : String
  trash_path : Option String
  sharedTo : List String
  deriving DecidableEq, Repr

/-- A row of the `documentshares` table. `expires_at` is a millisecond
timestamp. -/
structure Share where
  id : String
  doc_id : String
  uid : String
  share_type : String
  signed_url : Option String
  expires_at : Option Nat
  created_at : Nat
  deriving DecidableEq, Repr

/-- Combined external state: the live object keys of the storage bucket and
the two metadata tables. -/
structure DriveState where
  storage : Finset String
  docs : List Document
  shares : List Share
  deriving DecidableEq

/-- JS truthiness of a nullable string: present and nonempty. -/
def optTruthy : Option String → Bool
  | some s => s ≠ ""
  | none => false

/-- `str.replace(/^\/+/, '')`: drop leading slashes. (Implemented over the
character list so that concrete instances evaluate in the kernel.) -/
def stripSlashes (s : String) : String :=
  String.mk (s.data.dropWhile (fun c => c = '/'))

/-- JS `String.prototype.trim()`: strip whitespace from both ends. -/
def jsTrim (s : String) : String :=
  String.mk
    (((s.data.dropWhile Char.isWhitespace).reverse.dropWhile
        Char.isWhitespace).reverse)

/-- `str.replace(/^\/+/, '').trim()`: the key-cleaning idiom the controller
applies to stored paths. -/
def cleanKey (s : String) : String :=
  jsTrim (stripSlashes s)

/-- `path.basename`: the suffix after the last `/`. -/
def basename (s : String) : String :=
  String.mk ((s.data.reverse.takeWhile (fun c => c ≠ '/')).reverse)

/-- `a.startsWith(b)` on strings, via the prefix test on character lists. -/
def strStartsWith (s p : String) : Bool :=
  p.data.isPrefixOf s.data

/-- `s.slice(n)` on strings: drop the first `n` characters. -/
def strDrop (s : String) (n : Nat) : String :=
  String.mk (s.data.drop n)

/-- Model of `supabase.storage.createSignedUrl`: an opaque deterministic
URL for a key. -/
def mkSignedUrl (key : String) : String :=
  "signed:" ++ key

/-- Fault schedule for one `moveToTrash` call: whether each adapter call
fails. `cleanupRemoveFail` is the best-effort `remove([distPath])` in the
remove-failure branch. -/
structure TrashFaults where
  probeFail : Bool
  copyFail : Bool
  removeFail : Bool
  cleanupRemoveFail : Bool
  dbFail : Bool
  deriving DecidableEq, Repr

/-- Outcome of `moveToTrash` (the returned object, with `ok`/`warning`
shape). -/
inductive TrashOutcome where
  | errUnauthorized
  | errInvalidPath
  | errObjectNotFound
  | errCopyFailed
  | errRemoveFailed
  | okWarnDb (fileName trashPath : String)
  | ok (fileName trashPath : String)
  deriving DecidableEq, Repr

/-- `moveToTrash(supabase, userId, doc)` from
`controller/userDocController.js` lines 13–70, over a `DriveState`. -/
def moveToTrash (f : TrashFaults) (userId : String) (doc : Document)
    (st : DriveState) : TrashOutcome × DriveState :=
  if doc.uid ≠ userId then (.errUnauthorized, st)
  else
    let srcPath := cleanKey (doc.path_of_file.getD "")
    if srcPath = "" then (.errInvalidPath, st)
    else
      let distPath := "trash/" ++ userId ++ "/" ++ srcPath
      if f.probeFail = true ∨ srcPath ∉ st.storage then (.errObjectNotFound, st)
      else if f.copyFail = true then (.errCopyFailed, st)
      else
        let st1 := { st with storage := insert distPath st.storage }
        if f.removeFail = true then
          let st2 :=
            if f.cleanupRemoveFail = true then st1
            else { st1 with storage := st1.storage.erase distPath }
          (.errRemoveFailed, st2)
        else
          let st2 := { st1 with storage := st1.storage.erase srcPath }
          if f.dbFail = true then (.okWarnDb (basename srcPath) distPath, st2)
          else
            let st3 := { st2 with docs := st2.docs.map (fun d =>
              if d.id = doc.id ∧ d.uid = userId then
                { d with status := "trashed", trash_path := some distPath }
              else d) }
            (.ok (basename srcPath) distPath, st3)

/-- The trash destination key computed by `moveToTrash`. -/
def trashKeyOf (userId srcPath : String) : String :=
  "trash/" ++ userId ++ "/" ++ srcPath

theorem trashKeyOf_ne_src (userId srcPath : String) :
    trashKeyOf userId srcPath ≠ srcPath := by
  intro h
  have hlen := congrArg String.length h
  have h6 : "trash/".length = 6 := rfl
  have h1 : "/".length = 1 := rfl
  simp only [trashKeyOf, String.length_append, h6, h1] at hlen
  omega

/-- The source key `moveToTrash` computes from a document's
`path_of_file`. -/
def srcKeyOf (doc : Document) : String :=
  cleanKey (doc.path_of_file.getD "")

/-- The storage component after a completed move (copy to `tk`, remove of
`src`), with metadata untouched. -/
def movedStorage (tk src : String) (st : DriveState) : DriveState :=
  { st with storage := (insert tk st.storage).erase src }

/-- A sample active document used to instantiate hypotheses concretely. -/
def doc1 : Document :=
  { id := "doc1", uid := "u1", fileName := "report.pdf",
    path_of_file := some "documents/u1/report.pdf", status := "active",
    trash_path := none, sharedTo := [] }

/-- A sample state holding `doc1` and its live object. -/
def stA : DriveState :=
  { storage := {"documents/u1/report.pdf"}, docs := [doc1], shares := [] }

/-- C1: for a trash invocation on an owned document: a failing existence
probe (including a missing object) or a failing copy aborts with no state
change; a failing remove of the original reports `remove_failed`, leaves
the original live, leaves metadata untouched, and best-effort removes the
trash copy (restoring the exact pre-call state when that cleanup
succeeds); and when all storage steps succeed but the metadata update
fails, the call returns success with warning `db_update_failed`, the
storage state keeps the completed move (no rollback), and the metadata is
unchanged. -/
theorem C1_trash_partial_failure (f : TrashFaults) (u : String)
    (doc : Document) (st : DriveState) (hown : doc.uid = u)
    (hsrc : srcKeyOf doc ≠ "") :
    ((f.probeFail = true ∨ srcKeyOf doc ∉ st.storage) →
      moveToTrash f u doc st = (.errObjectNotFound, st)) ∧
    (f.probeFail = false → srcKeyOf doc ∈ st.storage → f.copyFail = true →
      moveToTrash f u doc st = (.errCopyFailed, st)) ∧
    (f.probeFail = false → srcKeyOf doc ∈ st.storage → f.copyFail = false →
      f.removeFail = true →
      (moveToTrash f u doc st).1 = .errRemoveFailed ∧
      srcKeyOf doc ∈ (moveToTrash f u doc st).2.storage ∧
      (moveToTrash f u doc st).2.docs = st.docs ∧
      (f.cleanupRemoveFail = false →
        trashKeyOf u (srcKeyOf doc) ∉ st.storage →
        (moveToTrash f u doc st).2 = st)) ∧
    (f.probeFail = false → srcKeyOf doc ∈ st.storage → f.copyFail = false →
      f.removeFail = false → f.dbFail = true →
      moveToTrash f u doc st =
        (.okWarnDb (basename (srcKeyOf doc)) (trashKeyOf u (srcKeyOf doc)),
         movedStorage (trashKeyOf u (srcKeyOf doc)) (srcKeyOf doc) st)) := by
  subst hown
  refine ⟨?_, ?_, ?_, ?_⟩
  · intro hp
    simp only [moveToTrash, srcKeyOf] at *
    simp [hsrc, hp]
  · intro hp hmem hc
    simp only [moveToTrash, srcKeyOf] at *
    simp [hsrc, hp, hmem, hc]
  · intro hp hmem hc hr
    have hne : srcKeyOf doc ≠ trashKeyOf doc.uid (srcKeyOf doc) :=
      fun h => trashKeyOf_ne_src doc.uid (srcKeyOf doc) h.symm
    refine ⟨?_, ?_, ?_, ?_⟩
    · simp only [moveToTrash, srcKeyOf] at *
      simp [hsrc, hp, hmem, hc, hr]
    · simp only [moveToTrash, srcKeyOf] at *
      by_cases hcl : f.cleanupRemoveFail = true <;>
        simp_all [trashKeyOf, Finset.mem_erase, Finset.mem_insert]
    · simp only [moveToTrash, srcKeyOf] at *
      by_cases hcl : f.cleanupRemoveFail = true <;> simp_all
    · intro hcl htk
      simp only [moveToTrash, srcKeyOf, trashKeyOf] at *
      simp [hsrc, hp, hmem, hc, hr, hcl, Finset.erase_insert htk]
  · intro hp hmem hc hr hd
    simp only [moveToTrash, srcKeyOf, trashKeyOf, movedStorage] at *
    simp [hsrc, hp, hmem, hc, hr, hd]

/-- Witness for C1: the metadata-update-failure scenario evaluated at a
concrete document and state. -/
theorem C1_trash_partial_failure_witness :
    moveToTrash ⟨false, false, false, false, true⟩ "u1" doc1 stA =
      (.okWarnDb "report.pdf" "trash/u1/documents/u1/report.pdf",
       movedStorage "trash/u1/documents/u1/report.pdf"
         "documents/u1/report.pdf" stA) := by
  have h :=
    (C1_trash_partial_failure ⟨false, false, false, false, true⟩ "u1" doc1
      stA rfl (by decide)).2.2.2 rfl (by decide) rfl rfl rfl
  simpa using h

/-- Core of `newName.replace(/[/\\]+/g, '_')`: each maximal run of `/` or
`\` becomes a single `_`. The flag records whether the previous character
belonged to such a run. -/
def collapseSepsAux : Bool → List Char → List Char
  | _, [] => []
  | prevSep, c :: rest =>
    if c = '/' ∨ c = '\\' then
      if prevSep then collapseSepsAux true rest
      else '_' :: collapseSepsAux true rest
    else c :: collapseSepsAux false rest

/-- `newNameRaw.replace(/[/\\]+/g, '_').trim()`. -/
def sanitizeName (s : String) : String :=
  jsTrim (String.mk (collapseSepsAux false s.data))

/-- `path.posix.dirname` for the keys the controller builds (keys are
slash-stripped by `cleanKey`, so the absolute-path branches of Node's
dirname are not reachable). -/
def dirname (s : String) : String :=
  let rev1 := s.data.reverse.dropWhile (fun c => c = '/')
  let rev2 := rev1.dropWhile (fun c => c ≠ '/')
  match rev2 with
  | [] => "."
  | _ :: dirRev =>
    if dirRev = [] then (if s.data.head? = some '/' then "/" else ".")
    else String.mk dirRev.reverse

/-- Fault schedule for one `renameUserDoc` call. `cleanupRemoveFail` is
the best-effort removal of the new copy when the old-key remove fails;
`rbCopyFail`/`rbRemoveFail` are the rollback copy (new→old) and removal of
the new key after a metadata-write failure. -/
structure RenameFaults where
  probeFail : Bool
  copyFail : Bool
  removeFail : Bool
  cleanupRemoveFail : Bool
  dbFail : Bool
  rbCopyFail : Bool
  rbRemoveFail : Bool
  deriving DecidableEq, Repr

/-- Outcome of `renameUserDoc` (each HTTP response the handler can
produce). -/
inductive RenameOutcome where
  | errEmptyName
  | errNotFound
  | errTrashed
  | errInvalidPath
  | okUnchanged
  | errProbe
  | errCopy
  | errRemove
  | errDb
  | ok (fileName newKey : String)
  deriving DecidableEq, Repr

/-- `renameUserDoc` from `controller/userDocController.js` lines 787–894,
for a request with a present `docId` and a string `newName`. -/
def renameUserDoc (f : RenameFaults) (userId docId newNameRaw : String)
    (st : DriveState) : RenameOutcome × DriveState :=
  let newName := sanitizeName newNameRaw
  if newName = "" then (.errEmptyName, st)
  else
    match st.docs.find?
        (fun d => decide (d.id = docId) && decide (d.uid = userId)) with
    | none => (.errNotFound, st)
    | some doc =>
      if doc.status = "trashed" then (.errTrashed, st)
      else
        let oldKey := cleanKey (doc.path_of_file.getD "")
        if oldKey = "" then (.errInvalidPath, st)
        else
          let newKey := dirname oldKey ++ "/" ++ newName
          if oldKey = newKey then (.okUnchanged, st)
          else if f.probeFail = true ∨ oldKey ∉ st.storage then
            (.errProbe, st)
          else if f.copyFail = true then (.errCopy, st)
          else
            let st1 := { st with storage := insert newKey st.storage }
            if f.removeFail = true then
              let st2 :=
                if f.cleanupRemoveFail = true then st1
                else { st1 with storage := st1.storage.erase newKey }
              (.errRemove, st2)
            else
              let st2 := { st1 with storage := st1.storage.erase oldKey }
              if f.dbFail = true then
                let st3 :=
                  if f.rbCopyFail = true then st2
                  else
                    let stc :=
                      { st2 with storage := insert oldKey st2.storage }
                    if f.rbRemoveFail = true then stc
                    else { stc with storage := stc.storage.erase newKey }
                (.errDb, st3)
              else
                let st3 := { st2 with docs := st2.docs.map (fun d =>
                  if d.id = doc.id ∧ d.uid = userId then
                    { d with fileName := newName,
                             path_of_file := some newKey }
                  else d) }
                (.ok newName newKey, st3)

/-- The old storage key `renameUserDoc` computes. -/
def oldKeyOf (doc : Document) : String :=
  cleanKey (doc.path_of_file.getD "")

/-- The new storage key `renameUserDoc` computes for a sanitized name. -/
def newKeyOf (doc : Document) (newName : String) : String :=
  dirname (oldKeyOf doc) ++ "/" ++ newName

/-- C2: when a rename's copy and remove succeed but the metadata write
fails, the engine rolls the storage back (reverse copy new→old, then
remove of the new key); when those two rollback calls succeed, the final
state equals the pre-rename state exactly and the failure surfaces as a
database error. -/
theorem C2_rename_rollback (f : RenameFaults) (u docId nm : String)
    (st : DriveState) (doc : Document)
    (hfind : st.docs.find?
      (fun d => decide (d.id = docId) && decide (d.uid = u)) = some doc)
    (hstatus : doc.status ≠ "trashed")
    (hname : sanitizeName nm ≠ "")
    (holdkey : oldKeyOf doc ≠ "")
    (hne : oldKeyOf doc ≠ newKeyOf doc (sanitizeName nm))
    (hmem : oldKeyOf doc ∈ st.storage)
    (hnew : newKeyOf doc (sanitizeName nm) ∉ st.storage)
    (hp : f.probeFail = false) (hc : f.copyFail = false)
    (hr : f.removeFail = false) (hdb : f.dbFail = true)
    (hrbc : f.rbCopyFail = false) (hrbr : f.rbRemoveFail = false) :
    renameUserDoc f u docId nm st = (.errDb, st) := by
  have hins : insert (oldKeyOf doc)
      ((insert (newKeyOf doc (sanitizeName nm)) st.storage).erase
        (oldKeyOf doc)) = insert (newKeyOf doc (sanitizeName nm)) st.storage :=
    Finset.insert_erase (Finset.mem_insert_of_mem hmem)
  have hera : (insert (newKeyOf doc (sanitizeName nm)) st.storage).erase
      (newKeyOf doc (sanitizeName nm)) = st.storage :=
    Finset.erase_insert hnew
  simp only [renameUserDoc, oldKeyOf, newKeyOf] at *
  simp [hfind, hstatus, hname, holdkey, hne, hmem, hnew, hp, hc, hr, hdb,
    hrbc, hrbr, hins, hera]

/-- Witness for C2: the rollback scenario at a concrete rename of
`doc1`. -/
theorem C2_rename_rollback_witness :
    renameUserDoc ⟨false, false, false, false, true, false, false⟩ "u1"
      "doc1" "summary.pdf" stA = (.errDb, stA) :=
  C2_rename_rollback ⟨false, false, false, false, true, false, false⟩ "u1"
    "doc1" "summary.pdf" stA doc1 (by decide) (by decide) (by decide)
    (by decide) (by decide) (by decide) (by decide) rfl rfl rfl rfl rfl rfl

/-- Fault schedule for one `shareUserDocument` call: share-row insert,
signed-URL mint, and share-row update. -/
structure ShareFaults where
  insertFail : Bool
  signFail : Bool
  updateFail : Bool
  deriving DecidableEq, Repr

/-- Outcome of `shareUserDocument`. -/
inductive ShareOutcome where
  | errMissingInput
  | errBadType
  | errNoDoc
  | errInsert
  | errSign
  | errUpdate
  | ok (shareId url : String) (expiresAt : Nat)
  deriving DecidableEq, Repr

/-- `shareUserDocument` from `controller/userDocController.js` lines
227–303 (up to the response stashing). `now` is `Date.now()` in
milliseconds and `shareId` the freshly generated uuid. The signed-URL TTL
is 24h, so `expires_at = now + 86400000`. -/
def shareUserDocument (f : ShareFaults) (now : Nat)
    (userId docId shareType shareId : String) (st : DriveState) :
    ShareOutcome × DriveState :=
  if docId = "" ∨ shareType = "" then (.errMissingInput, st)
  else if ¬(shareType = "restricted" ∨ shareType = "Anyone with link") then
    (.errBadType, st)
  else
    match st.docs.find?
        (fun d => decide (d.id = docId) && decide (d.uid = userId)) with
    | none => (.errNoDoc, st)
    | some doc =>
      if f.insertFail = true then (.errInsert, st)
      else
        let pending : Share :=
          { id := shareId, doc_id := docId, uid := userId,
            share_type := shareType, signed_url := none,
            expires_at := none, created_at := now }
        let st1 := { st with shares := st.shares ++ [pending] }
        if f.signFail = true ∨ doc.path_of_file.getD "" ∉ st.storage then
          (.errSign, st1)
        else
          let url := mkSignedUrl (doc.path_of_file.getD "")
          let expiresAt := now + 86400000
          if f.updateFail = true then (.errUpdate, st1)
          else
            let st2 := { st1 with shares := st1.shares.map (fun s =>
              if s.id = shareId then
                { s with signed_url := some url,
                         expires_at := some expiresAt }
              else s) }
            (.ok shareId url expiresAt, st2)

/-- Counterexample to C3: creating a `restricted` share on `doc1` (all
adapter calls succeeding) stores a grant that carries both a cached
`signed_url` and an `expires_at` — the handler mints and caches the URL
without ever inspecting the share type. -/
theorem C3_counterexample :
    (shareUserDocument ⟨false, false, false⟩ 0 "u1" "doc1" "restricted"
        "s1" stA).2.shares =
      [{ id := "s1", doc_id := "doc1", uid := "u1",
         share_type := "restricted",
         signed_url := some "signed:documents/u1/report.pdf",
         expires_at := some 86400000, created_at := 0 }] ∧
    (shareUserDocument ⟨false, false, false⟩ 0 "u1" "doc1" "restricted"
        "s1" stA).1 =
      .ok "s1" "signed:documents/u1/report.pdf" 86400000 := by
  constructor <;> rfl

/-- C3 (amended): `createShare` mints a signed URL and caches it with an
absolute expiry on every successfully created grant regardless of
`shareType` — `restricted` grants carry a cached `signed_url`/`expires_at`
exactly like public-link grants. -/
theorem C3_share_mints_regardless_of_type (f : ShareFaults) (now : Nat)
    (u docId shareType shareId : String) (st : DriveState) (doc : Document)
    (hdoc : docId ≠ "")
    (htype : shareType = "restricted" ∨ shareType = "Anyone with link")
    (hfind : st.docs.find?
      (fun d => decide (d.id = docId) && decide (d.uid = u)) = some doc)
    (hpath : doc.path_of_file.getD "" ∈ st.storage)
    (hfresh : ∀ s ∈ st.shares, s.id ≠ shareId)
    (hi : f.insertFail = false) (hs : f.signFail = false)
    (hu : f.updateFail = false) :
    shareUserDocument f now u docId shareType shareId st =
      (.ok shareId (mkSignedUrl (doc.path_of_file.getD ""))
         (now + 86400000),
       { st with shares := st.shares ++
          [{ id := shareId, doc_id := docId, uid := u,
             share_type := shareType,
             signed_url := some (mkSignedUrl (doc.path_of_file.getD "")),
             expires_at := some (now + 86400000), created_at := now }] }) := by
  have htyne : shareType ≠ "" := by
    rcases htype with h | h <;> simp [h]
  have hmap : ∀ l : List Share, (∀ s ∈ l, s.id ≠ shareId) →
      l.map (fun s =>
        if s.id = shareId then
          { s with signed_url := some (mkSignedUrl (doc.path_of_file.getD "")),
                   expires_at := some (now + 86400000) }
        else s) = l := by
    intro l hl
    refine (List.map_congr_left ?_).trans (List.map_id l)
    intro s hsmem
    simp [hl s hsmem]
  simp only [shareUserDocument] at *
  rcases htype with h | h <;>
    simp [h, hdoc, hfind, hpath, hi, hs, hu, hmap st.shares hfresh]

/-- Witness for C3 (amended): a public-link (`Anyone with link`) share of
`doc1`. -/
theorem C3_share_mints_regardless_of_type_witness :
    shareUserDocument ⟨false, false, false⟩ 1000 "u1" "doc1"
      "Anyone with link" "s2" stA =
      (.ok "s2" "signed:documents/u1/report.pdf" 86401000,
       { stA with shares :=
          [{ id := "s2", doc_id := "doc1", uid := "u1",
             share_type := "Anyone with link",
             signed_url := some "signed:documents/u1/report.pdf",
             expires_at := some 86401000, created_at := 1000 }] }) := by
  have h :=
    C3_share_mints_regardless_of_type ⟨false, false, false⟩ 1000 "u1" "doc1"
      "Anyone with link" "s2" stA doc1 (by decide) (Or.inr rfl) (by decide)
      (by decide) (by intro s hs; simp [stA] at hs) rfl rfl rfl
  simpa using h

/-- Outcome of `getSignedUrlForDoc` (util version consulted by
`openUserDocument`/`downloadUserDoc`). -/
inductive SignedUrlOutcome where
  | notFound
  | urlError
  | ok (url : String)
  deriving DecidableEq, Repr

/-- `getSignedUrlForDoc(userId, docId, ttl)` from
`util/getSignedUrlForDoc.js`: fetches the document by id alone, denies
trashed or unauthorized lookups with the same `not_found` it returns for
an absent row, then mints a fresh signed URL. `signFail` is the
adapter-fault flag of the mint. -/
def getSignedUrlForDoc (signFail : Bool) (userId docId : String)
    (st : DriveState) : SignedUrlOutcome :=
  match st.docs.find? (fun d => decide (d.id = docId)) with
  | none => .notFound
  | some doc =>
    if doc.status = "trashed" then .notFound
    else if ¬(doc.uid = userId ∨ userId ∈ doc.sharedTo) then .notFound
    else
      let storagePath := stripSlashes (doc.path_of_file.getD "")
      if storagePath = "" then .urlError
      else if signFail = true ∨ storagePath ∉ st.storage then .urlError
      else .ok (mkSignedUrl storagePath)

/-- Outcome of `openViaStoredShare` (each distinct HTTP response). -/
inductive OpenShareOutcome where
  | errNoDoc
  | errTrashed
  | errNotAuthorized
  | errNoShare
  | errExpired
  | ok (url : String)
  deriving DecidableEq, Repr

/-- The share row selected by `openViaStoredShare`: the latest-created
non-restricted share of the document
(`.neq('share_type','restricted').order('created_at', descending).limit(1)`). -/
def latestNonRestricted (docId : String) (shares : List Share) :
    Option Share :=
  (shares.filter (fun s =>
      decide (s.doc_id = docId) && decide (s.share_type ≠ "restricted"))).foldl
    (fun acc s =>
      match acc with
      | none => some s
      | some t => if t.created_at < s.created_at then some s else acc)
    none

/-- `openViaStoredShare` from `controller/userDocController.js` lines
980–1029 (duplicated verbatim at 1031–1081). -/
def openViaStoredShare (now : Nat) (requesterId docId : String)
    (st : DriveState) : OpenShareOutcome :=
  match st.docs.find? (fun d => decide (d.id = docId)) with
  | none => .errNoDoc
  | some doc =>
    if doc.status = "trashed" then .errTrashed
    else if ¬(doc.uid = requesterId ∨ requesterId ∈ doc.sharedTo) then
      .errNotAuthorized
    else
      match latestNonRestricted docId st.shares with
      | none => .errNoShare
      | some share =>
        match share.signed_url with
        | none => .errExpired
        | some url =>
          match share.expires_at with
          | some e => if e ≤ now then .errExpired else .ok url
          | none => .ok url

/-- Counterexample to C4: `openViaStoredShare` denies an unauthorized
requester of the *existing* `doc1` with `errNotAuthorized`
(HTTP 403 "Not authorized to open this file"), while a nonexistent id
yields `errNoDoc` (HTTP 404 "Document not found") — the two denials are
distinguishable, so denial is not not-found-shaped on this path. -/
theorem C4_counterexample :
    openViaStoredShare 0 "u2" "doc1" stA = .errNotAuthorized ∧
    openViaStoredShare 0 "u2" "ghost" stA = .errNoDoc ∧
    OpenShareOutcome.errNotAuthorized ≠ OpenShareOutcome.errNoDoc := by
  refine ⟨by rfl, by rfl, by decide⟩

/-- C4 (amended): `getSignedUrlForDoc` grants access exactly to the owner
or a `sharedTo` member (for an existing, active document whose URL mint
succeeds) and is not-found-shaped on denial: an existing-but-forbidden
document is indistinguishable from a nonexistent one (`notFound` both
ways). `openViaStoredShare` enforces the same owner-or-recipient
predicate, but its denial for an existing document is the distinguishable
`errNotAuthorized` rather than the nonexistent-document response. -/
theorem C4_viewer_resolution (st : DriveState) :
    (∀ sf u docId, st.docs.find? (fun d => decide (d.id = docId)) = none →
      getSignedUrlForDoc sf u docId st = .notFound) ∧
    (∀ sf u docId doc,
      st.docs.find? (fun d => decide (d.id = docId)) = some doc →
      doc.uid ≠ u → u ∉ doc.sharedTo →
      getSignedUrlForDoc sf u docId st = .notFound) ∧
    (∀ u docId doc,
      st.docs.find? (fun d => decide (d.id = docId)) = some doc →
      doc.status ≠ "trashed" → (doc.uid = u ∨ u ∈ doc.sharedTo) →
      stripSlashes (doc.path_of_file.getD "") ≠ "" →
      stripSlashes (doc.path_of_file.getD "") ∈ st.storage →
      getSignedUrlForDoc false u docId st =
        .ok (mkSignedUrl (stripSlashes (doc.path_of_file.getD "")))) ∧
    (∀ now r docId, st.docs.find? (fun d => decide (d.id = docId)) = none →
      openViaStoredShare now r docId st = .errNoDoc) ∧
    (∀ now r docId doc,
      st.docs.find? (fun d => decide (d.id = docId)) = some doc →
      doc.status ≠ "trashed" → doc.uid ≠ r → r ∉ doc.sharedTo →
      openViaStoredShare now r docId st = .errNotAuthorized) := by
  refine ⟨?_, ?_, ?_, ?_, ?_⟩
  · intro sf u docId hfind
    simp [getSignedUrlForDoc, hfind]
  · intro sf u docId doc hfind ho hm
    by_cases hst : doc.status = "trashed" <;>
      simp [getSignedUrlForDoc, hfind, hst, ho, hm]
  · intro u docId doc hfind hst hauth hpath hmem
    simp [getSignedUrlForDoc, hfind, hst, hauth, hpath, hmem]
  · intro now r docId hfind
    simp [openViaStoredShare, hfind]
  · intro now r docId doc hfind hst ho hm
    simp [openViaStoredShare, hfind, hst, ho, hm]

/-- Witness for C4 (amended): both denial shapes and an owner success on
`stA`. -/
theorem C4_viewer_resolution_witness :
    getSignedUrlForDoc false "u2" "doc1" stA = .notFound ∧
    getSignedUrlForDoc false "u2" "ghost" stA = .notFound ∧
    getSignedUrlForDoc false "u1" "doc1" stA =
      .ok "signed:documents/u1/report.pdf" ∧
    openViaStoredShare 0 "u2" "doc1" stA = .errNotAuthorized := by
  refine ⟨?_, ?_, ?_, ?_⟩
  · exact (C4_viewer_resolution stA).2.1 false "u2" "doc1" doc1 (by decide)
      (by decide) (by decide)
  · exact (C4_viewer_resolution stA).1 false "u2" "ghost" (by decide)
  · have h := (C4_viewer_resolution stA).2.2.1 "u1" "doc1" doc1 (by decide)
      (by decide) (Or.inl rfl) (by decide) (by decide)
    simpa using h
  · exact (C4_viewer_resolution stA).2.2.2.2 0 "u2" "doc1" doc1 (by decide)
      (by decide) (by decide) (by decide)

/-- Outcome of `accessSharedDoc` (the anonymous share-link endpoint). -/
inductive AccessShareOutcome where
  | errNoShareId
  | errInvalidLink
  | errDocNotFound
  | errRestricted
  | errExpired
  | ok (docId fileName url : String)
  deriving DecidableEq, Repr

/-- `accessSharedDoc` from `controller/userDocController.js` lines
897–939. It reads the grant and serves only the *stored* signed URL —
there is no storage call on this path, so no URL is ever re-minted; the
state is left untouched (the function is a pure read). -/
def accessSharedDoc (now : Nat) (shareId : String) (st : DriveState) :
    AccessShareOutcome :=
  if shareId = "" then .errNoShareId
  else
    match st.shares.find? (fun s => decide (s.id = shareId)) with
    | none => .errInvalidLink
    | some share =>
      match st.docs.find? (fun d => decide (d.id = share.doc_id)) with
      | none => .errDocNotFound
      | some doc =>
        if share.share_type = "restricted" then .errRestricted
        else
          match share.signed_url with
          | none => .errExpired
          | some url =>
            match share.expires_at with
            | some e =>
              if e ≤ now then .errExpired else .ok doc.id doc.fileName url
            | none => .ok doc.id doc.fileName url

/-- C5: for an existing grant: a `restricted` grant is denied at every
time (no requester identity even reaches the handler — it reads none);
a non-restricted grant with a cached URL succeeds with exactly that
cached URL while `now < expiresAt`; and once the cached URL is absent or
`now ≥ expiresAt` the result is the expired-link signal, which is
distinct from both not-found responses. No URL is minted on this path
(`accessSharedDoc` performs no storage call and returns the stored URL
unchanged). -/
theorem C5_access_public_grant (st : DriveState) (shareId : String)
    (share : Share) (hsid : shareId ≠ "")
    (hfind : st.shares.find? (fun s => decide (s.id = shareId)) =
      some share) :
    (share.share_type = "restricted" → ∀ now,
      accessSharedDoc now shareId st = .errDocNotFound ∨
      accessSharedDoc now shareId st = .errRestricted) ∧
    (∀ doc, st.docs.find? (fun d => decide (d.id = share.doc_id)) =
        some doc →
      share.share_type ≠ "restricted" →
      (∀ now url e, share.signed_url = some url →
        share.expires_at = some e → now < e →
        accessSharedDoc now shareId st = .ok doc.id doc.fileName url) ∧
      (∀ now, share.signed_url = none →
        accessSharedDoc now shareId st = .errExpired) ∧
      (∀ now e, share.expires_at = some e → e ≤ now →
        accessSharedDoc now shareId st = .errExpired)) ∧
    AccessShareOutcome.errExpired ≠ .errInvalidLink ∧
    AccessShareOutcome.errExpired ≠ .errDocNotFound := by
  refine ⟨?_, ?_, by decide, by decide⟩
  · intro hrestr now
    cases hdoc : st.docs.find? (fun d => decide (d.id = share.doc_id)) with
    | none => exact Or.inl (by simp [accessSharedDoc, hsid, hfind, hdoc])
    | some doc =>
      exact Or.inr (by simp [accessSharedDoc, hsid, hfind, hdoc, hrestr])
  · intro doc hdoc htype
    refine ⟨?_, ?_, ?_⟩
    · intro now url e hurl he hlt
      simp [accessSharedDoc, hsid, hfind, hdoc, htype, hurl, he,
        Nat.not_le.mpr hlt]
    · intro now hurl
      simp [accessSharedDoc, hsid, hfind, hdoc, htype, hurl]
    · intro now e he hle
      cases hurl : share.signed_url with
      | none => simp [accessSharedDoc, hsid, hfind, hdoc, htype, hurl]
      | some url =>
        simp [accessSharedDoc, hsid, hfind, hdoc, htype, hurl, he, hle]

/-- A state with `doc1` plus one public-link grant and one restricted
grant (both expiring at t = 2000). -/
def stB : DriveState :=
  { storage := {"documents/u1/report.pdf"}, docs := [doc1],
    shares :=
      [{ id := "sp", doc_id := "doc1", uid := "u1",
         share_type := "Anyone with link",
         signed_url := some "signed:documents/u1/report.pdf",
         expires_at := some 2000, created_at := 0 },
       { id := "sr", doc_id := "doc1", uid := "u1",
         share_type := "restricted",
         signed_url := some "signed:documents/u1/report.pdf",
         expires_at := some 2000, created_at := 1 }] }

/-- Witness for C5: on `stB`, the restricted grant denies, the public
grant serves the cached URL before expiry and reports expiry at its
expiry time. -/
theorem C5_access_public_grant_witness :
    (accessSharedDoc 0 "sr" stB = .errDocNotFound ∨
      accessSharedDoc 0 "sr" stB = .errRestricted) ∧
    accessSharedDoc 1000 "sp" stB =
      .ok "doc1" "report.pdf" "signed:documents/u1/report.pdf" ∧
    accessSharedDoc 2000 "sp" stB = .errExpired := by
  refine ⟨?_, ?_, ?_⟩
  · exact (C5_access_public_grant stB "sr"
      { id := "sr", doc_id := "doc1", uid := "u1",
        share_type := "restricted",
        signed_url := some "signed:documents/u1/report.pdf",
        expires_at := some 2000, created_at := 1 } (by decide)
      (by decide)).1 rfl 0
  · have h := ((C5_access_public_grant stB "sp"
      { id := "sp", doc_id := "doc1", uid := "u1",
        share_type := "Anyone with link",
        signed_url := some "signed:documents/u1/report.pdf",
        expires_at := some 2000, created_at := 0 } (by decide)
      (by decide)).2.1 doc1 (by decide) (by decide)).1 1000
      "signed:documents/u1/report.pdf" 2000 rfl rfl (by decide)
    simpa using h
  · exact ((C5_access_public_grant stB "sp"
      { id := "sp", doc_id := "doc1", uid := "u1",
        share_type := "Anyone with link",
        signed_url := some "signed:documents/u1/report.pdf",
        expires_at := some 2000, created_at := 0 } (by decide)
      (by decide)).2.1 doc1 (by decide) (by decide)).2.2 2000 2000 rfl
      (by decide)

/-- One per-item result object pushed into a batch handler's `results`
array. Fields mirror the JS object keys (`note` carries the secondary
payload key: `trashPath`/`restoredTo`/`removed`/`keptAt`). -/
structure Entry where
  id : String
  ok : Bool := false
  skipped : Bool := false
  reason : Option String := none
  warning : Option String := none
  error : Option String := none
  note : Option String := none
  deriving DecidableEq, Repr

/-- Fault schedule for one restore item: storage copy, trash-remove, and
metadata update. -/
structure RestoreFaults where
  copyFail : Bool
  removeFail : Bool
  dbFail : Bool
  deriving DecidableEq, Repr

/-- The destination key `restoreUserDoc` computes: the cleaned stored
`path_of_file` when truthy, else the cleaned `trash_path` with the
`"trash/" + uid + "/"` prefix stripped, and `none` when that prefix does
not match. -/
def restoreDst (userId : String) (doc : Document) : Option String :=
  if optTruthy doc.path_of_file = true then
    some (cleanKey (doc.path_of_file.getD ""))
  else
    let pre := "trash/" ++ userId ++ "/"
    if strStartsWith (cleanKey (doc.trash_path.getD "")) pre = true then
      some (strDrop (cleanKey (doc.trash_path.getD "")) pre.data.length)
    else none

/-- The state after a fully successful restore of `doc`: object copied
back to `dst`, trash copy removed, metadata row set to
`status=active, path_of_file=dst, trash_path=null`. -/
def restoredState (userId dst src docId : String) (st : DriveState) :
    DriveState :=
  { st with
    storage := (insert dst st.storage).erase src,
    docs := st.docs.map (fun d =>
      if d.id = docId ∧ d.uid = userId then
        { d with status := "active", path_of_file := some dst,
                 trash_path := none }
      else d) }

/-- The per-document body of the `restoreUserDoc` loop
(`controller/userDocController.js` lines 699–782): returns the entries it
pushes (possibly two) and the updated state. -/
def restoreItem (f : RestoreFaults) (userId : String) (doc : Document)
    (st : DriveState) : List Entry × DriveState :=
  if doc.status ≠ "trashed" then
    ([{ id := doc.id, skipped := true, reason := some "not_trashed" }], st)
  else if ¬ optTruthy doc.trash_path = true then
    ([{ id := doc.id, skipped := true,
        reason := some "missing_trash_path" }], st)
  else
    let srcTrashKey := cleanKey (doc.trash_path.getD "")
    match restoreDst userId doc with
    | none =>
      ([{ id := doc.id,
          error := some "cannot_reconstruct_original_path" }], st)
    | some dst =>
      if dst = "" then
        ([{ id := doc.id, error := some "invalid_original_path" }], st)
      else if f.copyFail = true then
        ([{ id := doc.id, error := some "copy_failed" }], st)
      else
        let st1 := { st with storage := insert dst st.storage }
        let step2 : List Entry × DriveState :=
          if f.removeFail = true then
            ([{ id := doc.id, warning := some "trash_remove_failed",
                note := some dst }], st1)
          else ([], { st1 with storage := st1.storage.erase srcTrashKey })
        if f.dbFail = true then
          (step2.1 ++ [{ id := doc.id, warning := some "db_update_failed" }],
           step2.2)
        else
          (step2.1 ++ [{ id := doc.id, ok := true, note := some dst }],
           { step2.2 with docs := step2.2.docs.map (fun d =>
              if d.id = doc.id ∧ d.uid = userId then
                { d with status := "active", path_of_file := some dst,
                         trash_path := none }
              else d) })

/-- Fault schedule for one permanent-delete item: storage remove and
metadata row delete. -/
structure PermFaults where
  removeFail : Bool
  rowDeleteFail : Bool
  deriving DecidableEq, Repr

/-- The per-document body of the `permanentlyDeleteDocs` loop
(`controller/userDocController.js` lines 603–649): returns the entries it
pushes (possibly two) and the updated state. The row delete proceeds
regardless of the storage-remove outcome. -/
def permDeleteItem (f : PermFaults) (userId : String) (doc : Document)
    (st : DriveState) : List Entry × DriveState :=
  if doc.status ≠ "trashed" ∨ ¬ optTruthy doc.trash_path = true then
    ([{ id := doc.id, skipped := true,
        reason := some (if doc.status ≠ "trashed" then "not_trashed"
          else "missing_trash_path") }], st)
  else
    let storageKey := cleanKey (doc.trash_path.getD "")
    if storageKey = "" then
      ([{ id := doc.id, error := some "invalid_trash_path" }], st)
    else
      let step1 : List Entry × DriveState :=
        if f.removeFail = true then
          ([{ id := doc.id, warning := some "storage_remove_failed",
              note := some storageKey }], st)
        else ([{ id := doc.id, ok := true, note := some storageKey }],
              { st with storage := st.storage.erase storageKey })
      if f.rowDeleteFail = true then
        (step1.1 ++
          [{ id := doc.id, warning := some "db_row_delete_failed" }],
         step1.2)
      else
        (step1.1, { step1.2 with docs := step1.2.docs.filter (fun d =>
          ¬(d.id = doc.id ∧ d.uid = userId)) })

/-- Outcome of the single-id branch of `deleteUserDocTemp`. -/
inductive SingleTrashOutcome where
  | errNotFound
  | errUnauthorized
  | errMove (code : String)
  | skippedAlready (fileName : String) (trashPath : Option String)
  | ok (fileName trashPath : String) (warning : Option String)
  deriving DecidableEq, Repr

/-- The single-id branch of `deleteUserDocTemp`
(`controller/userDocController.js` lines 469–508). -/
def deleteUserDocSingle (f : TrashFaults) (userId docId : String)
    (st : DriveState) : SingleTrashOutcome × DriveState :=
  match st.docs.find?
      (fun d => decide (d.id = docId) && decide (d.uid = userId)) with
  | none => (.errNotFound, st)
  | some doc =>
    if doc.status = "trashed" then
      (.skippedAlready doc.fileName doc.trash_path, st)
    else
      match moveToTrash f userId doc st with
      | (.errUnauthorized, st1) => (.errUnauthorized, st1)
      | (.errInvalidPath, st1) => (.errMove "invalid_path", st1)
      | (.errObjectNotFound, st1) => (.errMove "object_not_found", st1)
      | (.errCopyFailed, st1) => (.errMove "copy_failed", st1)
      | (.errRemoveFailed, st1) => (.errMove "remove_failed", st1)
      | (.okWarnDb fn tp, st1) => (.ok fn tp (some "db_update_failed"), st1)
      | (.ok fn tp, st1) => (.ok fn tp none, st1)

/-- The entry the batch-trash loop pushes for one `moveToTrash` result
(`{ id: doc.id, ...r }`). -/
def entryOfTrash (docId : String) : TrashOutcome → Entry
  | .errUnauthorized => { id := docId, error := some "unauthorized" }
  | .errInvalidPath => { id := docId, error := some "invalid_path" }
  | .errObjectNotFound => { id := docId, error := some "object_not_found" }
  | .errCopyFailed => { id := docId, error := some "copy_failed" }
  | .errRemoveFailed => { id := docId, error := some "remove_failed" }
  | .okWarnDb _ tp =>
    { id := docId, ok := true, warning := some "db_update_failed",
      note := some tp }
  | .ok _ tp => { id := docId, ok := true, note := some tp }

/-- The per-document loop of the batch branch of `deleteUserDocTemp`
(lines 530–538): already-trashed documents are skipped, the rest go
through `moveToTrash`; every document contributes exactly one entry and
the loop never aborts. `fs` gives each document id its fault schedule. -/
def trashLoop (fs : String → TrashFaults) (userId : String) :
    List Document → DriveState → List Entry × DriveState
  | [], st => ([], st)
  | doc :: rest, st =>
    let first : Entry × DriveState :=
      if doc.status = "trashed" then
        ({ id := doc.id, skipped := true,
           reason := some "already_trashed" }, st)
      else
        let r := moveToTrash (fs doc.id) userId doc st
        (entryOfTrash doc.id r.1, r.2)
    let rest' := trashLoop fs userId rest first.2
    (first.1 :: rest'.1, rest'.2)

/-- The batch restore loop (each item may push one or two entries). -/
def restoreLoop (fs : String → RestoreFaults) (userId : String) :
    List Document → DriveState → List Entry × DriveState
  | [], st => ([], st)
  | doc :: rest, st =>
    let first := restoreItem (fs doc.id) userId doc st
    let rest' := restoreLoop fs userId rest first.2
    (first.1 ++ rest'.1, rest'.2)

/-- The batch permanent-delete loop (each item may push one or two
entries). -/
def permLoop (fs : String → PermFaults) (userId : String) :
    List Document → DriveState → List Entry × DriveState
  | [], st => ([], st)
  | doc :: rest, st =>
    let first := permDeleteItem (fs doc.id) userId doc st
    let rest' := permLoop fs userId rest first.2
    (first.1 ++ rest'.1, rest'.2)

/-- `.in('id', ids).eq('uid', userId)`: the documents the batch handlers
resolve — matching one of the requested ids AND owned by the caller. -/
def resolveOwned (ids : List String) (userId : String)
    (docs : List Document) : List Document :=
  docs.filter (fun d => decide (d.id ∈ ids) && decide (d.uid = userId))

/-- The ids the batch handlers report as missing: requested but not among
the resolved documents. -/
def missingOf (ids : List String) (docs : List Document) : List String :=
  ids.filter (fun i => decide (i ∉ docs.map Document.id))

/-- Outcome of a batch lifecycle handler. -/
inductive BatchOutcome where
  | errNoIds
  | errFetch
  | errNotFound
  | ok (missingIds : List String) (results : List Entry)
  deriving DecidableEq, Repr

/-- The batch branch of `deleteUserDocTemp` (lines 510–541), over an
already-parsed id list. -/
def deleteUserDocBatch (fetchFail : Bool) (fs : String → TrashFaults)
    (userId : String) (ids : List String) (st : DriveState) :
    BatchOutcome × DriveState :=
  if ids = [] then (.errNoIds, st)
  else if fetchFail = true then (.errFetch, st)
  else
    let docs := resolveOwned ids userId st.docs
    if docs = [] then (.errNotFound, st)
    else
      let r := trashLoop fs userId docs st
      (.ok (missingOf ids docs) r.1, r.2)

/-- `restoreUserDoc` (lines 654–785) over an already-parsed id list (the
single-id route passes the singleton list). -/
def restoreUserDocBatch (fetchFail : Bool) (fs : String → RestoreFaults)
    (userId : String) (ids : List String) (st : DriveState) :
    BatchOutcome × DriveState :=
  if ids = [] then (.errNoIds, st)
  else if fetchFail = true then (.errFetch, st)
  else
    let docs := resolveOwned ids userId st.docs
    if docs = [] then (.errNotFound, st)
    else
      let r := restoreLoop fs userId docs st
      (.ok (missingOf ids docs) r.1, r.2)

/-- `permanentlyDeleteDocs` (lines 559–652) over an already-parsed id
list. -/
def permanentlyDeleteDocsBatch (fetchFail : Bool)
    (fs : String → PermFaults) (userId : String) (ids : List String)
    (st : DriveState) : BatchOutcome × DriveState :=
  if ids = [] then (.errNoIds, st)
  else if fetchFail = true then (.errFetch, st)
  else
    let docs := resolveOwned ids userId st.docs
    if docs = [] then (.errNotFound, st)
    else
      let r := permLoop fs userId docs st
      (.ok (missingOf ids docs) r.1, r.2)

/-- The metadata row a successful restore leaves behind. -/
def restoredDoc (dst : String) (doc : Document) : Document :=
  { doc with status := "active", path_of_file := some dst,
             trash_path := none }

/-- Counterexample to C6: a trashed document with no stored `storageKey`
and `trash_path = "trash/u1/"` — the prefix matches but stripping it
leaves the empty string, so *neither source yields a key*, yet the item
fails with `invalid_original_path`, not the claimed
`cannot_reconstruct_original_path` (state unchanged either way). -/
theorem C6_counterexample :
    restoreItem ⟨false, false, false⟩ "u1"
      { id := "r2", uid := "u1", fileName := "x", path_of_file := none,
        status := "trashed", trash_path := some "trash/u1/",
        sharedTo := [] }
      { storage := {"trash/u1/"}, docs := [], shares := [] } =
      ([{ id := "r2", error := some "invalid_original_path" }],
       { storage := {"trash/u1/"}, docs := [], shares := [] }) ∧
    some "invalid_original_path" ≠ some "cannot_reconstruct_original_path"
    := by
  exact ⟨by rfl, by decide⟩

/-- C6 (amended): for a restore of a trashed document the destination key
is the cleaned stored `storageKey` when truthy, else the `trashKey` with
the `"trash/" + uid + "/"` prefix stripped (`restoreDst`); when the
prefix does not match the item fails with
`cannot_reconstruct_original_path` and nothing changes; when the computed
key is empty it fails with `invalid_original_path` and nothing changes;
and on full success the metadata row becomes
`status=active, storageKey=dst, trashKey=null`. -/
theorem C6_restore_destination (f : RestoreFaults) (u : String)
    (doc : Document) (st : DriveState) (hst : doc.status = "trashed")
    (htp : optTruthy doc.trash_path = true) :
    (restoreDst u doc = none →
      restoreItem f u doc st =
        ([{ id := doc.id,
            error := some "cannot_reconstruct_original_path" }], st)) ∧
    (restoreDst u doc = some "" →
      restoreItem f u doc st =
        ([{ id := doc.id, error := some "invalid_original_path" }], st)) ∧
    (∀ dst, restoreDst u doc = some dst → dst ≠ "" →
      f.copyFail = false → f.removeFail = false → f.dbFail = false →
      restoreItem f u doc st =
        ([{ id := doc.id, ok := true, note := some dst }],
         restoredState u dst (cleanKey (doc.trash_path.getD "")) doc.id
           st)) ∧
    (∀ dst, restoreDst u doc = some dst → dst ≠ "" →
      f.copyFail = false → f.removeFail = false → f.dbFail = false →
      doc ∈ st.docs → doc.uid = u →
      restoredDoc dst doc ∈ (restoreItem f u doc st).2.docs) := by
  refine ⟨?_, ?_, ?_, ?_⟩
  · intro hdst
    simp [restoreItem, hst, htp, hdst]
  · intro hdst
    simp [restoreItem, hst, htp, hdst]
  · intro dst hdst hne hc hr hd
    simp [restoreItem, restoredState, hst, htp, hdst, hne, hc, hr, hd]
  · intro dst hdst hne hc hr hd hmem huid
    have heq : (restoreItem f u doc st).2.docs = st.docs.map (fun d =>
        if d.id = doc.id ∧ d.uid = u then restoredDoc dst d else d) := by
      simp [restoreItem, restoredDoc, hst, htp, hdst, hne, hc, hr, hd]
    rw [heq]
    have himg : (if doc.id = doc.id ∧ doc.uid = u then restoredDoc dst doc
        else doc) = restoredDoc dst doc := if_pos ⟨rfl, huid⟩
    exact himg ▸ List.mem_map_of_mem _ hmem

/-- A trashed sample document whose object sits at its trash key. -/
def docR : Document :=
  { id := "r1", uid := "u1", fileName := "report.pdf",
    path_of_file := some "documents/u1/report.pdf", status := "trashed",
    trash_path := some "trash/u1/documents/u1/report.pdf", sharedTo := [] }

/-- State holding `docR` with its trash object live. -/
def stR : DriveState :=
  { storage := {"trash/u1/documents/u1/report.pdf"}, docs := [docR],
    shares := [] }

/-- Witness for C6 (amended): a fully successful restore of `docR` lands
at the stored `storageKey` and rewrites the metadata row. -/
theorem C6_restore_destination_witness :
    restoreItem ⟨false, false, false⟩ "u1" docR stR =
      ([{ id := "r1", ok := true,
          note := some "documents/u1/report.pdf" }],
       restoredState "u1" "documents/u1/report.pdf"
         "trash/u1/documents/u1/report.pdf" "r1" stR) ∧
    restoredDoc "documents/u1/report.pdf" docR ∈
      (restoreItem ⟨false, false, false⟩ "u1" docR stR).2.docs := by
  constructor
  · have h := (C6_restore_destination ⟨false, false, false⟩ "u1" docR stR
      (by decide) (by decide)).2.2.1 "documents/u1/report.pdf" (by decide)
      (by decide) rfl rfl rfl
    simpa using h
  · exact (C6_restore_destination ⟨false, false, false⟩ "u1" docR stR
      (by decide) (by decide)).2.2.2 "documents/u1/report.pdf" (by decide)
      (by decide) rfl rfl rfl (by decide) (by decide)

/-- C7: unmet status preconditions only skip: trashing an already-trashed
document answers `skipped` (with the document's current name and trash
path) and leaves the state untouched, and permanently deleting a
non-trashed document pushes a single skip entry with reason
`not_trashed` and mutates neither storage nor metadata. -/
theorem C7_precondition_skips :
    (∀ (f : TrashFaults) (u docId : String) (st : DriveState)
        (doc : Document),
      st.docs.find?
        (fun d => decide (d.id = docId) && decide (d.uid = u)) = some doc →
      doc.status = "trashed" →
      deleteUserDocSingle f u docId st =
        (.skippedAlready doc.fileName doc.trash_path, st)) ∧
    (∀ (f : PermFaults) (u : String) (doc : Document) (st : DriveState),
      doc.status ≠ "trashed" →
      permDeleteItem f u doc st =
        ([{ id := doc.id, skipped := true,
            reason := some "not_trashed" }], st)) := by
  constructor
  · intro f u docId st doc hfind hst
    simp [deleteUserDocSingle, hfind, hst]
  · intro f u doc st hst
    simp [permDeleteItem, hst]

/-- A trashed sample document distinct from `docR`. -/
def docT : Document :=
  { id := "t1", uid := "u1", fileName := "old.pdf",
    path_of_file := some "documents/u1/old.pdf", status := "trashed",
    trash_path := some "trash/u1/documents/u1/old.pdf", sharedTo := [] }

/-- State holding the trashed `docT`. -/
def stT : DriveState :=
  { storage := {"trash/u1/documents/u1/old.pdf"}, docs := [docT],
    shares := [] }

/-- Witness for C7: trash on trashed `docT` skips without mutation, and
permanent delete on the active `doc1` skips with `not_trashed`. -/
theorem C7_precondition_skips_witness :
    deleteUserDocSingle ⟨false, false, false, false, false⟩ "u1" "t1" stT =
      (.skippedAlready "old.pdf" (some "trash/u1/documents/u1/old.pdf"),
       stT) ∧
    permDeleteItem ⟨false, false⟩ "u1" doc1 stA =
      ([{ id := "doc1", skipped := true,
          reason := some "not_trashed" }], stA) := by
  constructor
  · have h := C7_precondition_skips.1 ⟨false, false, false, false, false⟩
      "u1" "t1" stT docT (by decide) rfl
    simpa using h
  · exact C7_precondition_skips.2 ⟨false, false⟩ "u1" doc1 stA (by decide)

theorem entryOfTrash_id (docId : String) (r : TrashOutcome) :
    (entryOfTrash docId r).id = docId := by
  cases r <;> rfl

theorem trashLoop_map_id (fs : String → TrashFaults) (u : String) :
    ∀ (docs : List Document) (st : DriveState),
      ((trashLoop fs u docs st).1).map Entry.id = docs.map Document.id := by
  intro docs
  induction docs with
  | nil => intro st; rfl
  | cons d rest ih =>
    intro st
    by_cases hd : d.status = "trashed" <;>
      simp [trashLoop, hd, entryOfTrash_id, ih]

/-- C9: a nonempty batch trash whose id set resolves to no owned document
fails as a 404-class error with nothing changed; when at least one
document resolves, the request succeeds with `missingIds` listing exactly
the requested ids that did not resolve, and with one independent per-item
entry per resolved document, in order — a failing item never suppresses
its siblings' entries (the entry ids always equal the resolved document
ids, for every fault schedule). -/
theorem C9_batch_missing_and_isolation (fs : String → TrashFaults)
    (u : String) (ids : List String) (st : DriveState) (hids : ids ≠ []) :
    (resolveOwned ids u st.docs = [] →
      deleteUserDocBatch false fs u ids st = (.errNotFound, st)) ∧
    (resolveOwned ids u st.docs ≠ [] →
      (deleteUserDocBatch false fs u ids st).1 =
        .ok (missingOf ids (resolveOwned ids u st.docs))
          (trashLoop fs u (resolveOwned ids u st.docs) st).1 ∧
      ((trashLoop fs u (resolveOwned ids u st.docs) st).1).map Entry.id =
        (resolveOwned ids u st.docs).map Document.id) ∧
    (∀ i, i ∈ missingOf ids (resolveOwned ids u st.docs) ↔
      i ∈ ids ∧ i ∉ (resolveOwned ids u st.docs).map Document.id) := by
  refine ⟨?_, ?_, ?_⟩
  · intro hempty
    simp [deleteUserDocBatch, hids, hempty]
  · intro hne
    exact ⟨by simp [deleteUserDocBatch, hids, hne], trashLoop_map_id fs u _ st⟩
  · intro i
    simp [missingOf, List.mem_filter]

/-- Fault-free trash schedule. -/
def tfNone : TrashFaults := ⟨false, false, false, false, false⟩

/-- Batch scenario: `docA9`, `docC9` owned by `u1` (`docC9` already
trashed), `docB9` owned by `u2`. -/
def stC9 : DriveState :=
  { storage := {"documents/u1/a.pdf"},
    docs :=
      [{ id := "a", uid := "u1", fileName := "a.pdf",
         path_of_file := some "documents/u1/a.pdf", status := "active",
         trash_path := none, sharedTo := [] },
       { id := "b", uid := "u2", fileName := "b.pdf",
         path_of_file := some "documents/u2/b.pdf", status := "active",
         trash_path := none, sharedTo := [] },
       { id := "c", uid := "u1", fileName := "c.pdf",
         path_of_file := some "documents/u1/c.pdf", status := "trashed",
         trash_path := some "trash/u1/documents/u1/c.pdf",
         sharedTo := [] }] , shares := [] }

/-- Witness for C9: batch trash of `[a, b, c]` by `u1`, where `b` belongs
to `u2`: `missingIds = [b]` and per-item entries exactly for `a` and
`c`. -/
theorem C9_batch_missing_and_isolation_witness :
    (deleteUserDocBatch false (fun _ => tfNone) "u1" ["a", "b", "c"]
        stC9).1 =
      .ok (missingOf ["a", "b", "c"]
            (resolveOwned ["a", "b", "c"] "u1" stC9.docs))
        (trashLoop (fun _ => tfNone) "u1"
          (resolveOwned ["a", "b", "c"] "u1" stC9.docs) stC9).1 ∧
    missingOf ["a", "b", "c"]
      (resolveOwned ["a", "b", "c"] "u1" stC9.docs) = ["b"] ∧
    ((trashLoop (fun _ => tfNone) "u1"
        (resolveOwned ["a", "b", "c"] "u1" stC9.docs) stC9).1).map
      Entry.id = ["a", "c"] := by
  refine ⟨?_, by decide, ?_⟩
  · exact ((C9_batch_missing_and_isolation (fun _ => tfNone) "u1"
      ["a", "b", "c"] stC9 (by decide)).2.1 (by decide)).1
  · have h := ((C9_batch_missing_and_isolation (fun _ => tfNone) "u1"
      ["a", "b", "c"] stC9 (by decide)).2.1 (by decide)).2
    rw [h]; decide

/-- The per-item results of a successful batch outcome. -/
def BatchOutcome.resultsD : BatchOutcome → List Entry
  | .ok _ rs => rs
  | _ => []

/-- C10: batch restore and batch permanent delete can push two entries
for one document id. With the trash-remove failing, restoring `docR`
pushes a storage-step warning *and* a metadata-step ok entry; with both
the storage remove and the row delete failing, permanently deleting
`docR` pushes two warning entries — so per-item results are not keyed
uniquely by document id. -/
theorem C10_duplicate_result_entries :
    (restoreUserDocBatch false (fun _ => ⟨false, true, false⟩) "u1" ["r1"]
        stR).1 =
      .ok []
        [{ id := "r1", warning := some "trash_remove_failed",
           note := some "documents/u1/report.pdf" },
         { id := "r1", ok := true,
           note := some "documents/u1/report.pdf" }] ∧
    ((restoreUserDocBatch false (fun _ => ⟨false, true, false⟩) "u1"
        ["r1"] stR).1.resultsD).map Entry.id = ["r1", "r1"] ∧
    (permanentlyDeleteDocsBatch false (fun _ => ⟨true, true⟩) "u1" ["r1"]
        stR).1 =
      .ok []
        [{ id := "r1", warning := some "storage_remove_failed",
           note := some "trash/u1/documents/u1/report.pdf" },
         { id := "r1", warning := some "db_row_delete_failed" }] ∧
    ((permanentlyDeleteDocsBatch false (fun _ => ⟨true, true⟩) "u1"
        ["r1"] stR).1.resultsD).map Entry.id = ["r1", "r1"] := by
  refine ⟨by rfl, by rfl, by rfl, by rfl⟩

/-- Fault schedule for one `removeShare` call: the `sharedTo` update and
the share-row bulk delete. -/
structure RemoveShareFaults where
  updateFail : Bool
  deleteSharesFail : Bool
  deriving DecidableEq, Repr

/-- Outcome of `removeShare`. -/
inductive RemoveShareOutcome where
  | errNoDocId
  | errNoDoc
  | errNotOwner
  | errDb
  | errBadMode
  | okOwner (updatedSharedTo : List String) (clearedPublicShares : Bool)
  | okRecipientAlready (sharedTo : List String)
  | okRecipient (removed : String) (updatedSharedTo : List String)
  deriving DecidableEq, Repr

/-- `.update({ sharedTo: v }).eq('id', docId)`. -/
def setSharedTo (docId : String) (v : List String) (st : DriveState) :
    DriveState :=
  { st with docs := st.docs.map (fun d =>
      if d.id = docId then { d with sharedTo := v } else d) }

/-- `.delete().eq('doc_id', docId).neq('share_type', 'restricted')`:
remove every non-restricted grant of the document. -/
def deleteNonRestricted (docId : String) (st : DriveState) : DriveState :=
  { st with shares := st.shares.filter (fun s =>
      !(decide (s.doc_id = docId) && decide (s.share_type ≠ "restricted"))) }

/-- `removeShare` from `controller/userDocController.js` lines 1087–1185.
`mode = none` (or the empty string, falsy in JS) is inferred from
ownership; `recipients = some rs` with `rs ≠ []` selects subset removal
in owner mode. A failing share-row delete is non-fatal
(`clearedPublicShares = false`). -/
def removeShare (f : RemoveShareFaults) (requesterId docId : String)
    (mode : Option String) (recipients : Option (List String))
    (st : DriveState) : RemoveShareOutcome × DriveState :=
  if docId = "" then (.errNoDocId, st)
  else
    match st.docs.find? (fun d => decide (d.id = docId)) with
    | none => (.errNoDoc, st)
    | some doc =>
      let inferred := if doc.uid = requesterId then "owner" else "recipient"
      let effMode := match mode with
        | some m => if m = "" then inferred else m
        | none => inferred
      if effMode = "owner" then
        if ¬(doc.uid = requesterId) then (.errNotOwner, st)
        else
          let updated := match recipients with
            | some rs =>
              if rs ≠ [] then doc.sharedTo.filter (fun i => decide (i ∉ rs))
              else []
            | none => []
          if f.updateFail = true then (.errDb, st)
          else
            let st1 := setSharedTo docId updated st
            if f.deleteSharesFail = true then (.okOwner updated false, st1)
            else (.okOwner updated true, deleteNonRestricted docId st1)
      else if effMode = "recipient" then
        if requesterId ∉ doc.sharedTo then
          (.okRecipientAlready doc.sharedTo, st)
        else
          let updated := doc.sharedTo.filter
            (fun i => decide (i ≠ requesterId))
          if f.updateFail = true then (.errDb, st)
          else (.okRecipient requesterId updated, setSharedTo docId updated st)
      else (.errBadMode, st)

/-- C8: owner mode demands ownership; an owner-mode revoke with no
recipients clears `sharedTo` to the empty set and deletes exactly the
non-restricted grants of the document (restricted grants and other
documents' grants survive); recipient mode removes exactly the
requester's own id from `sharedTo`, and when that id is already absent
the call succeeds idempotently with no state change. -/
theorem C8_revoke_share (f : RemoveShareFaults) (r docId : String)
    (st : DriveState) (doc : Document) (hdocId : docId ≠ "")
    (hfind : st.docs.find? (fun d => decide (d.id = docId)) = some doc) :
    (∀ recipients, doc.uid ≠ r →
      removeShare f r docId (some "owner") recipients st =
        (.errNotOwner, st)) ∧
    (doc.uid = r → f.updateFail = false → f.deleteSharesFail = false →
      removeShare f r docId (some "owner") none st =
        (.okOwner [] true,
         deleteNonRestricted docId (setSharedTo docId [] st))) ∧
    (∀ st' s, s ∈ (deleteNonRestricted docId st').shares ↔
      s ∈ st'.shares ∧ (s.doc_id = docId → s.share_type = "restricted")) ∧
    (∀ recipients, r ∈ doc.sharedTo → f.updateFail = false →
      removeShare f r docId (some "recipient") recipients st =
        (.okRecipient r (doc.sharedTo.filter (fun i => decide (i ≠ r))),
         setSharedTo docId
           (doc.sharedTo.filter (fun i => decide (i ≠ r))) st)) ∧
    (∀ recipients, r ∉ doc.sharedTo →
      removeShare f r docId (some "recipient") recipients st =
        (.okRecipientAlready doc.sharedTo, st)) := by
  refine ⟨?_, ?_, ?_, ?_, ?_⟩
  · intro recipients hno
    simp [removeShare, hdocId, hfind, hno]
  · intro hyes hu hd
    simp [removeShare, hdocId, hfind, hyes, hu, hd]
  · intro st' s
    simp only [deleteNonRestricted, List.mem_filter, Bool.not_eq_true',
      Bool.and_eq_false_iff, decide_eq_false_iff_not, not_not,
      decide_eq_true_eq]
    constructor
    · rintro ⟨hmem, h | h⟩
      · exact ⟨hmem, fun hd => absurd hd h⟩
      · exact ⟨hmem, fun _ => h⟩
    · rintro ⟨hmem, h⟩
      by_cases hd : s.doc_id = docId
      · exact ⟨hmem, Or.inr (h hd)⟩
      · exact ⟨hmem, Or.inl hd⟩
  · intro recipients hmem hu
    simp [removeShare, hdocId, hfind, hmem, hu]
  · intro recipients hnm
    simp [removeShare, hdocId, hfind, hnm]

/-- A sharing scenario: `doc1` shared to `u2`, `u3`, with one public and
one restricted grant plus a public grant of another document. -/
def stW : DriveState :=
  { storage := {"documents/u1/report.pdf"},
    docs := [{ id := "doc1", uid := "u1", fileName := "report.pdf",
               path_of_file := some "documents/u1/report.pdf",
               status := "active", trash_path := none,
               sharedTo := ["u2", "u3"] }],
    shares :=
      [{ id := "sp", doc_id := "doc1", uid := "u1",
         share_type := "Anyone with link",
         signed_url := some "signed:documents/u1/report.pdf",
         expires_at := some 2000, created_at := 0 },
       { id := "sr", doc_id := "doc1", uid := "u1",
         share_type := "restricted", signed_url := none,
         expires_at := none, created_at := 1 },
       { id := "sq", doc_id := "docX", uid := "u1",
         share_type := "Anyone with link", signed_url := some "signed:x",
         expires_at := some 2000, created_at := 2 }] }

/-- The document row of `stW`. -/
def docW : Document :=
  { id := "doc1", uid := "u1", fileName := "report.pdf",
    path_of_file := some "documents/u1/report.pdf", status := "active",
    trash_path := none, sharedTo := ["u2", "u3"] }

/-- Witness for C8: on `stW`, an owner-mode revoke with no recipients
clears `sharedTo` and keeps only the restricted and other-document
grants; a recipient-mode revoke by `u2` removes exactly `u2`; a
recipient-mode revoke by the non-recipient `u9` is an idempotent
success. -/
theorem C8_revoke_share_witness :
    removeShare ⟨false, false⟩ "u1" "doc1" (some "owner") none stW =
      (.okOwner [] true,
       deleteNonRestricted "doc1" (setSharedTo "doc1" [] stW)) ∧
    (deleteNonRestricted "doc1" (setSharedTo "doc1" [] stW)).shares.map
      Share.id = ["sr", "sq"] ∧
    removeShare ⟨false, false⟩ "u2" "doc1" (some "recipient") none stW =
      (.okRecipient "u2" ["u3"],
       setSharedTo "doc1" ["u3"] stW) ∧
    removeShare ⟨false, false⟩ "u9" "doc1" (some "recipient") none stW =
      (.okRecipientAlready ["u2", "u3"], stW) := by
  refine ⟨?_, by decide, ?_, ?_⟩
  · exact (C8_revoke_share ⟨false, false⟩ "u1" "doc1" stW docW (by decide)
      (by decide)).2.1 rfl rfl rfl
  · have h := (C8_revoke_share ⟨false, false⟩ "u2" "doc1" stW docW
      (by decide) (by decide)).2.2.2.1 none (by decide) rfl
    simpa using h
  · have h := (C8_revoke_share ⟨false, false⟩ "u9" "doc1" stW docW
      (by decide) (by decide)).2.2.2.2 none (by decide)
    simpa using h

end Drive
